import Mathlib

/-!
# Convia license server — shallow embedding

A shallow embedding of the core routes of the `convia-license-server`
repository (FastAPI + SQLAlchemy), translated from:

* `app/api/routes/public_license.py` (`verify_license`, `claim_license`,
  `verify_magic_link`)
* `app/api/routes/admin_license.py` (`reset_containers`)
* `app/api/routes/paddle_webhook.py` (`paddle_webhook`)
* `app/core/paddle_webhook_verify.py` (`_parse_paddle_signature_header`,
  `verify_paddle_signature`)
* `app/core/config.py` (`PLAN_MAX_CONTAINERS`)
* the table models under `app/models/`.

The relational store is modelled as lists of rows; `datetime.utcnow()` is an
explicit `now : Nat` parameter; SQLAlchemy's `.first()` is `List.find?`,
`.count()` is `(List.filter _).length`, `.delete()` is a filter, and a commit
is the returned store.  JSON numbers are modelled as integers (the webhook
payloads the routes read only use integer quantities); Python booleans are not
treated as integers by the `isinstance(_, int)` check in this model.
-/

namespace Convia

/-- Python values produced by `json.loads`; `null` doubles as Python `None`. -/
inductive Json where
  | null
  | bool (b : Bool)
  | num (n : Int)
  | str (s : String)
  | arr (xs : List Json)
  | obj (fields : List (String × Json))
  deriving Inhabited

/-- Python truthiness of a JSON-decoded value. -/
def Json.truthy : Json → Bool
  | .null => false
  | .bool b => b
  | .num n => n != 0
  | .str s => !s.isEmpty
  | .arr xs => !xs.isEmpty
  | .obj fs => !fs.isEmpty

/-- Python's `a or b` on JSON-decoded values. -/
def pyOr (a b : Json) : Json := if a.truthy then a else b

/-- `d.get(k)` on a dict: `some` value when the key is present, else `none`
(also `none` when the value is not a dict at all). -/
def Json.lookup : Json → String → Option Json
  | .obj fs, k => (fs.find? (fun p => p.1 == k)).map (·.2)
  | _, _ => none

/-- `d.get(k, default)`. -/
def Json.getD (j : Json) (k : String) (d : Json) : Json := (j.lookup k).getD d

/-- `isinstance(v, dict)`. -/
def Json.isObj : Json → Bool
  | .obj _ => true
  | _ => false

/-- Python `str()` of a JSON-decoded value (scalars only need to be faithful:
the routes apply it to ids, plan names and statuses). -/
def Json.pyStr : Json → String
  | .null => "None"
  | .bool true => "True"
  | .bool false => "False"
  | .num n => toString n
  | .str s => s
  | .arr _ => "<list>"
  | .obj _ => "<dict>"

/-- Python `str(v) if v else None` (used for stored nullable columns). -/
def jsonToOptStr (j : Json) : Option String :=
  match j with
  | .null => none
  | j => some j.pyStr

/-! ## Table rows (app/models/) -/

/-- `customers` table row. -/
structure Customer where
  id : Nat
  email : Option String
  paddle_customer_id : Option String
  deriving Repr, DecidableEq

/-- `licenses` table row. -/
structure License where
  id : Nat
  paddle_subscription_id : String
  email : Option String
  allowed_containers : Int
  customer_id : Option Nat
  status : String
  created_at : Nat
  updated_at : Nat
  deriving Repr, DecidableEq

/-- `license_usages` table row. -/
structure LicenseUsage where
  id : Nat
  license_id : Nat
  machine_id : String
  container_id : Option String
  deriving Repr, DecidableEq

/-- `machine_bindings` table row. -/
structure MachineBinding where
  id : Nat
  license_id : Nat
  machine_id : String
  deriving Repr, DecidableEq

/-- `magic_tokens` table row. -/
structure MagicToken where
  id : Nat
  token : String
  license_id : Nat
  expires_at : Nat
  used_at : Option Nat
  created_at : Nat
  deriving Repr, DecidableEq

/-- `webhook_logs` table row. -/
structure WebhookLog where
  event_type : String
  payload : String
  signature : String
  deriving Repr, DecidableEq

/-- The relational store: one list per table, plus a fresh-id counter. -/
structure Store where
  customers : List Customer
  licenses : List License
  usages : List LicenseUsage
  bindings : List MachineBinding
  tokens : List MagicToken
  logs : List WebhookLog
  nextId : Nat
  deriving Repr, DecidableEq

/-! ## POST /api/license/verify (public_license.py, verify_license) -/

/-- `LicenseVerifyRequest` schema. -/
structure LicenseVerifyRequest where
  license_key : String
  machine_id : String
  container_id : Option String
  deriving Repr, DecidableEq

/-- `LicenseVerifyResponse` schema. -/
structure LicenseVerifyResponse where
  valid : Bool
  message : String
  license_id : Option Nat := none
  allowed_containers : Option Int := none
  current_usage : Option Nat := none
  deriving Repr, DecidableEq

/-- Truthiness of the optional `container_id` field (`if request.container_id:`). -/
def cidTruthy : Option String → Bool
  | none => false
  | some s => !s.isEmpty

/-- `current_usage`: count of `LicenseUsage` rows of the license. -/
def usageCount (db : Store) (lid : Nat) : Nat :=
  (db.usages.filter (fun u => u.license_id == lid)).length

/-- The `existing_usage` query: first `LicenseUsage` row of the license with
this `container_id`. -/
def findUsage (db : Store) (lid : Nat) (cid : Option String) : Option LicenseUsage :=
  db.usages.find? (fun u => u.license_id == lid && u.container_id == cid)

/-- The `existing_binding` query. -/
def findBinding (db : Store) (lid : Nat) (mid : String) : Option MachineBinding :=
  db.bindings.find? (fun b => b.license_id == lid && b.machine_id == mid)

/-- Step 3 of `verify_license`: the container-limit rejection condition.
`-1` (unlimited) never rejects; a tracked `container_id` is re-verification
and never rejects; otherwise reject once `current_usage >= allowed`. -/
def quotaReject (db : Store) (lic : License) (cid : Option String) : Bool :=
  if lic.allowed_containers != -1 then
    if cidTruthy cid then
      (findUsage db lic.id cid).isNone &&
        decide ((usageCount db lic.id : Int) ≥ lic.allowed_containers)
    else
      decide ((usageCount db lic.id : Int) ≥ lic.allowed_containers)
  else false

/-- Step 4 of `verify_license`: insert a `LicenseUsage` row for a truthy,
not-yet-tracked `container_id`. -/
def recordUsage (db : Store) (lid : Nat) (req : LicenseVerifyRequest) : Store :=
  if cidTruthy req.container_id then
    if (findUsage db lid req.container_id).isNone then
      let row : LicenseUsage :=
        { id := db.nextId, license_id := lid,
          machine_id := req.machine_id, container_id := req.container_id }
      { db with usages := db.usages ++ [row], nextId := db.nextId + 1 }
    else db
  else db

/-- Step 5 of `verify_license`: insert a `MachineBinding` row if the machine
is not yet bound to the license. -/
def bindMachine (db : Store) (lid : Nat) (mid : String) : Store :=
  if (findBinding db lid mid).isNone then
    let row : MachineBinding := { id := db.nextId, license_id := lid, machine_id := mid }
    { db with bindings := db.bindings ++ [row], nextId := db.nextId + 1 }
  else db

/-- `verify_license` route: looks up the license by key, checks active status,
enforces the container quota (`-1` = unlimited), records usage for a new
`container_id`, and creates a machine binding if absent.  (In the source the
`existing_binding` query runs before the usage insert; since the insert does
not touch `machine_bindings`, checking it on the post-insert store is the
same.) -/
def verify_license (req : LicenseVerifyRequest) (db : Store) :
    LicenseVerifyResponse × Store :=
  match db.licenses.find? (fun l => l.paddle_subscription_id == req.license_key) with
  | none => ({ valid := false, message := "License not found" }, db)
  | some lic =>
    if lic.status ≠ "active" then
      ({ valid := false,
         message := "License is " ++ lic.status ++ ". Only active licenses are valid." }, db)
    else if quotaReject db lic req.container_id then
      ({ valid := false,
         message := "Container limit reached. Allowed: " ++
           toString lic.allowed_containers ++ ", Current: " ++
           toString (usageCount db lic.id),
         allowed_containers := some lic.allowed_containers,
         current_usage := some (usageCount db lic.id) }, db)
    else
      let db2 := bindMachine (recordUsage db lic.id req) lic.id req.machine_id
      ({ valid := true,
         message := "License verified and bound to machine",
         license_id := some lic.id,
         allowed_containers := some lic.allowed_containers,
         current_usage := some (usageCount db2 lic.id) }, db2)

/-! ## GET /api/license/claim (public_license.py, claim_license) -/

/-- `MagicLinkClaimResponse` schema. -/
structure MagicLinkClaimResponse where
  success : Bool
  message : String
  license_id : Option Nat := none
  deriving Repr, DecidableEq

/-- The `claim_license` query predicate:
`token == tk AND used_at IS NULL AND expires_at > now`. -/
def claimTokenMatch (tk : String) (now : Nat) (t : MagicToken) : Bool :=
  t.token == tk && t.used_at.isNone && decide (now < t.expires_at)

/-- `claim_license` route: redeems a magic token — valid only while unused and
unexpired; marks `used_at = now` and creates a machine binding if absent. -/
def claim_license (tk machine_id : String) (now : Nat) (db : Store) :
    MagicLinkClaimResponse × Store :=
  match db.tokens.find? (claimTokenMatch tk now) with
  | none => ({ success := false, message := "Invalid or expired token" }, db)
  | some mt =>
    let tokens' := db.tokens.map
      (fun t => if t.id == mt.id then { t with used_at := some now } else t)
    let existing_binding := db.bindings.find?
      (fun b => b.license_id == mt.license_id && b.machine_id == machine_id)
    let db1 := { db with tokens := tokens' }
    let db2 :=
      if existing_binding.isNone then
        let row : MachineBinding :=
          { id := db1.nextId, license_id := mt.license_id, machine_id := machine_id }
        { db1 with bindings := db1.bindings ++ [row], nextId := db1.nextId + 1 }
      else db1
    ({ success := true, message := "License claimed successfully",
       license_id := some mt.license_id }, db2)

/-! ## GET /api/license/magic-link/verify (public_license.py, verify_magic_link) -/

/-- The response body of the magic-link info endpoint. -/
structure MagicLinkInfo where
  valid : Bool
  license_id : Nat
  license_key : String
  email : Option String
  status : String
  allowed_containers : Int
  deriving Repr, DecidableEq

/-- An `HTTPException`: status code and detail message. -/
structure HttpError where
  status_code : Nat
  detail : String
  deriving Repr, DecidableEq

/-- `verify_magic_link` route: the read-only info view.  Its query filters on
`token == tk AND used_at IS NULL AND expires_at > now` — the same validity
predicate as `claim_license` — then returns the license snapshot. -/
def verify_magic_link (tk : String) (now : Nat) (db : Store) :
    Except HttpError MagicLinkInfo :=
  match db.tokens.find? (claimTokenMatch tk now) with
  | none => .error ⟨404, "Invalid or expired token"⟩
  | some mt =>
    match db.licenses.find? (fun l => l.id == mt.license_id) with
    | none => .error ⟨404, "License not found"⟩
    | some lic =>
      .ok { valid := true, license_id := lic.id,
            license_key := lic.paddle_subscription_id,
            email := lic.email, status := lic.status,
            allowed_containers := lic.allowed_containers }

/-! ## POST /api/admin/licenses/{id}/reset-containers (admin_license.py) -/

/-- `verify_admin_api_key`: rejects a falsy header or a key that differs from
the configured `admin_api_key`. -/
def verify_admin_api_key (adminKey : String) (provided : Option String) : Bool :=
  match provided with
  | none => false
  | some k => !k.isEmpty && k == adminKey

/-- `reset_containers` route: deletes every `LicenseUsage` row of the license
(404 when the license id is unknown, 401 when the admin key is bad). -/
def reset_containers (adminKey : String) (provided : Option String)
    (license_id : Nat) (db : Store) : Except HttpError (String × Store) :=
  if !verify_admin_api_key adminKey provided then
    .error ⟨401, "Invalid or missing admin API key"⟩
  else
    match db.licenses.find? (fun l => l.id == license_id) with
    | none => .error ⟨404, "License not found"⟩
    | some _ =>
      .ok ("Container usage reset",
        { db with usages := db.usages.filter (fun u => !(u.license_id == license_id)) })

/-! ## Paddle-Signature verification (core/paddle_webhook_verify.py) -/

/-- Python `s.lower()` (character-wise). -/
def pyLower (s : String) : String := String.mk (s.data.map Char.toLower)

/-- Python `header.split(";")` on the character list. -/
def splitOnChar (sep : Char) : List Char → List (List Char)
  | [] => [[]]
  | c :: cs =>
    let r := splitOnChar sep cs
    if c == sep then [] :: r
    else
      match r with
      | [] => [[c]]
      | h :: t => (c :: h) :: t

/-- Python `part.split("=", 1)` when `"=" in part`: key before the first `=`,
value (which may itself contain `=`) after it; `none` when there is no `=`. -/
def splitKV : List Char → Option (List Char × List Char)
  | [] => none
  | c :: cs =>
    if c == '=' then some ([], cs)
    else (splitKV cs).map (fun p => (c :: p.1, p.2))

/-- Python `s.strip()`: drop whitespace from both ends. -/
def pyStrip (l : List Char) : List Char :=
  ((l.dropWhile Char.isWhitespace).reverse.dropWhile Char.isWhitespace).reverse

/-- Dict assignment `values[k] = v`: a later key overwrites an earlier one. -/
def dictInsert (m : List (String × String)) (k v : String) : List (String × String) :=
  m.filter (fun p => p.1 ≠ k) ++ [(k, v)]

/-- `_parse_paddle_signature_header`: split on `;`, collect stripped `k=v`
pairs into a dict (parts without `=` and unknown keys are ignored), and
require both `ts` and `h1`. -/
def parse_paddle_signature_header (header : String) : Option (String × String) :=
  let values := (splitOnChar ';' header.data).foldl
    (fun m part =>
      match splitKV part with
      | some (k, v) => dictInsert m (String.mk (pyStrip k)) (String.mk (pyStrip v))
      | none => m) []
  match (values.find? (fun p => p.1 == "ts")).map (·.2),
        (values.find? (fun p => p.1 == "h1")).map (·.2) with
  | some ts, some h1 => some (ts, h1)
  | _, _ => none

/-- `verify_paddle_signature`: requires a (truthy) `Paddle-Signature` header,
parses `ts`/`h1`, recomputes the hex HMAC-SHA256 of `"{ts}:{body}"` and
compares it with `h1`.  `hmacHex secret msg` abstracts
`hmac.new(secret, msg, sha256).hexdigest()`. -/
def verify_paddle_signature (hmacHex : String → String → String)
    (secret : String) (header : Option String) (body : String) :
    Except HttpError String :=
  let h := (header.getD "")
  if h.isEmpty then
    .error ⟨400, "Missing Paddle-Signature header"⟩
  else
    match parse_paddle_signature_header h with
    | none => .error ⟨400, "Malformed Paddle-Signature header"⟩
    | some (ts, h1) =>
      let digest := hmacHex secret (ts ++ ":" ++ body)
      if digest == h1 then .ok body
      else .error ⟨401, "Invalid webhook signature"⟩

/-! ## POST /api/paddle/webhook (paddle_webhook.py) -/

/-- `PLAN_MAX_CONTAINERS` from core/config.py (`-1` means unlimited). -/
def PLAN_MAX_CONTAINERS : List (String × Int) :=
  [("basic", 1), ("pro", 5), ("enterprise", -1)]

/-- `PLAN_MAX_CONTAINERS.get(plan_name)`. -/
def planLookup (plan : String) : Option Int :=
  (PLAN_MAX_CONTAINERS.find? (fun p => p.1 == plan)).map (·.2)

/-- Minimal `json.dumps` (only stored in audit-log rows). -/
def Json.dumps : Json → String
  | .null => "null"
  | .bool true => "true"
  | .bool false => "false"
  | .num n => toString n
  | .str s => "\x22" ++ s ++ "\x22"
  | .arr xs => "[" ++ String.intercalate ", " (xs.attach.map (fun x => Json.dumps x.1)) ++ "]"
  | .obj fs => "\x7b" ++
      String.intercalate ", "
        (fs.attach.map (fun p => "\x22" ++ p.1.1 ++ "\x22: " ++ Json.dumps p.1.2)) ++ "\x7d"
decreasing_by
  · have h := List.sizeOf_lt_of_mem x.2
    simp only [Json.arr.sizeOf_spec]
    omega
  · obtain ⟨⟨a, b⟩, hp⟩ := p
    have h := List.sizeOf_lt_of_mem hp
    simp only [Json.obj.sizeOf_spec, Prod.mk.sizeOf_spec] at *
    omega

/-- `payload.get("event_type") or payload.get("event") or "unknown"`,
then `str(...).lower()`. -/
def eventTypeOf (p : Json) : String :=
  (pyOr ((p.lookup "event_type").getD .null)
    (pyOr ((p.lookup "event").getD .null) (.str "unknown"))).pyStr |> pyLower

/-- `payload.get("data", {}) or {}`. -/
def subDataOf (p : Json) : Json := pyOr (p.getD "data" (.obj [])) (.obj [])

/-- Plan name in the `subscription.*` branch: from `items[0].price.name`,
falling back to `price.product_id`, then `"basic"`; lower-cased. -/
def subPlanNameOf (data : Json) : String :=
  let items := pyOr (data.getD "items" (.arr [])) (.arr [])
  match items with
  | .arr (x :: _) =>
    let first_item := pyOr x (.obj [])
    let price_info := pyOr (first_item.getD "price" (.obj [])) (.obj [])
    (pyOr ((price_info.lookup "name").getD .null)
      (pyOr ((price_info.lookup "product_id").getD .null) (.str "basic"))).pyStr |> pyLower
  | _ => "basic"

/-- `get_token_expiry()`: `utcnow() + 24h` (in seconds). -/
def get_token_expiry (now : Nat) : Nat := now + 24 * 3600

/-- `data.get("customer", {}) or {}` in the `subscription.*` branch. -/
def subCustomerOf (data : Json) : Json := pyOr (data.getD "customer" (.obj [])) (.obj [])

/-- `customer_data.get("email") or ""`. -/
def subEmailOf (data : Json) : Json :=
  pyOr (((subCustomerOf data).lookup "email").getD .null) (.str "")

/-- `data.get("status", "active")` coerced to the stored string. -/
def subStatusOf (data : Json) : String := (data.getD "status" (.str "active")).pyStr

/-- `PLAN_MAX_CONTAINERS.get(plan_name, 1)` in the `subscription.*` branch. -/
def subAllowedOf (data : Json) : Int := (planLookup (subPlanNameOf data)).getD 1

/-- The `subscription.created` / `subscription.updated` branch: upserts the
Customer by email and the License by subscription id; a magic token is issued
(and the email attempted) only when the license was just created and an email
is known. `newTok` stands for the `generate_magic_token()` randomness. -/
def handleSubscriptionEvent (p : Json) (newTok : String) (now : Nat)
    (db : Store) : Store :=
  let data := subDataOf p
  let sid := (data.lookup "id").getD .null
  if !sid.truthy then db
  else
    let customer_data := subCustomerOf data
    let customer_email := subEmailOf data
    let paddle_customer_id := (customer_data.lookup "id").getD .null
    let allowed := subAllowedOf data
    let (customerId?, db) :=
      if customer_email.truthy then
        match db.customers.find? (fun c => c.email == some customer_email.pyStr) with
        | some c => (some c.id, db)
        | none =>
          let c : Customer :=
            { id := db.nextId, email := some customer_email.pyStr,
              paddle_customer_id :=
                if paddle_customer_id.truthy then some paddle_customer_id.pyStr
                else none }
          (some c.id,
            { db with customers := db.customers ++ [c], nextId := db.nextId + 1 })
      else (none, db)
    let status := subStatusOf data
    match db.licenses.find? (fun l => l.paddle_subscription_id == sid.pyStr) with
    | none =>
      let lic : License :=
        { id := db.nextId, paddle_subscription_id := sid.pyStr,
          email := some customer_email.pyStr, allowed_containers := allowed,
          customer_id := customerId?, status := status,
          created_at := now, updated_at := now }
      let db := { db with licenses := db.licenses ++ [lic], nextId := db.nextId + 1 }
      if customer_email.truthy then
        let tok : MagicToken :=
          { id := db.nextId, token := newTok, license_id := lic.id,
            expires_at := get_token_expiry now, used_at := none, created_at := now }
        { db with tokens := db.tokens ++ [tok], nextId := db.nextId + 1 }
      else db
    | some lic =>
      let lic' :=
        { lic with
          status := status, email := some customer_email.pyStr,
          allowed_containers := allowed,
          customer_id := if customerId?.isSome then customerId? else lic.customer_id,
          updated_at := now }
      { db with licenses := db.licenses.map (fun l => if l.id == lic.id then lic' else l) }

/-- Plan name in the `transaction.completed` branch (same fallback chain). -/
def txnPlanNameOf (data : Json) : String :=
  let items := pyOr ((data.lookup "items").getD .null) (.arr [])
  match items with
  | .arr (x :: _) =>
    let first_item := pyOr x (.obj [])
    let price_info := pyOr (first_item.getD "price" (.obj [])) (.obj [])
    (pyOr ((price_info.lookup "name").getD .null)
      (pyOr ((price_info.lookup "product_id").getD .null) (.str "basic"))).pyStr |> pyLower
  | _ => "basic"

/-- Quantity-based default in the `transaction.completed` branch: starts at 1,
replaced by `items[0].quantity` when that is a positive integer. -/
def txnQtyDefault (data : Json) : Int :=
  let items := pyOr ((data.lookup "items").getD .null) (.arr [])
  match items with
  | .arr (x :: _) =>
    let first_item := pyOr x (.obj [])
    match first_item.lookup "quantity" with
    | some (.num q) => if q > 0 then q else 1
    | _ => 1
  | _ => 1

/-- Quota in the `transaction.completed` branch: a `PLAN_MAX_CONTAINERS`
mapping for the plan name wins; otherwise the quantity-based default. -/
def txnQuotaOf (data : Json) : Int :=
  match planLookup (txnPlanNameOf data) with
  | some m => m
  | none => txnQtyDefault data

/-- Email in the `transaction.completed` branch: `data.customer.email`,
overridden by `data.billing_details.email` when truthy (`.null` = Python
`None`). -/
def txnEmailOf (data : Json) : Json :=
  let customer_obj := pyOr ((data.lookup "customer").getD .null) (.obj [])
  let email1 :=
    if customer_obj.isObj then
      pyOr ((customer_obj.lookup "email").getD .null) .null
    else .null
  let billing := pyOr ((data.lookup "billing_details").getD .null) (.obj [])
  if billing.isObj then pyOr ((billing.lookup "email").getD .null) email1
  else email1

/-- The `transaction.completed` branch: skipped entirely without a
`data.subscription_id`; otherwise resolves the Customer by paddle customer id
then email, creating one when either identifier is present, and upserts the
License (with magic-token issuance on creation). -/
def handleTransactionCompleted (p : Json) (newTok : String) (now : Nat)
    (db : Store) : Store :=
  let data := subDataOf p
  let sid := (data.lookup "subscription_id").getD .null
  if !sid.truthy then db
  else
    let paddle_customer_id := (data.lookup "customer_id").getD .null
    let email := txnEmailOf data
    let allowed := txnQuotaOf data
    let found1 :=
      if paddle_customer_id.truthy then
        db.customers.find?
          (fun c => c.paddle_customer_id == some paddle_customer_id.pyStr)
      else none
    let found2 :=
      match found1 with
      | some c => some c
      | none =>
        if email.truthy then
          db.customers.find? (fun c => c.email == some email.pyStr)
        else none
    let (customerId?, db) :=
      match found2 with
      | some c => (some c.id, db)
      | none =>
        if paddle_customer_id.truthy || email.truthy then
          let c : Customer :=
            { id := db.nextId, email := jsonToOptStr email,
              paddle_customer_id := jsonToOptStr paddle_customer_id }
          (some c.id,
            { db with customers := db.customers ++ [c], nextId := db.nextId + 1 })
        else (none, db)
    let status := (pyOr ((data.lookup "status").getD .null) (.str "active")).pyStr
    match db.licenses.find? (fun l => l.paddle_subscription_id == sid.pyStr) with
    | none =>
      let lic : License :=
        { id := db.nextId, paddle_subscription_id := sid.pyStr,
          email := jsonToOptStr email, allowed_containers := allowed,
          customer_id := customerId?, status := status,
          created_at := now, updated_at := now }
      let db := { db with licenses := db.licenses ++ [lic], nextId := db.nextId + 1 }
      if email.truthy then
        let tok : MagicToken :=
          { id := db.nextId, token := newTok, license_id := lic.id,
            expires_at := get_token_expiry now, used_at := none, created_at := now }
        { db with tokens := db.tokens ++ [tok], nextId := db.nextId + 1 }
      else db
    | some lic =>
      let lic' :=
        { lic with
          allowed_containers := allowed,
          email := if email.truthy then some email.pyStr else lic.email,
          customer_id := if customerId?.isSome then customerId? else lic.customer_id,
          status := status, updated_at := now }
      { db with licenses := db.licenses.map (fun l => if l.id == lic.id then lic' else l) }

/-- The `subscription.cancelled` branch: set the license status to
`"cancelled"` when the subscription id is known, else a no-op. -/
def handleSubscriptionCancelled (p : Json) (now : Nat) (db : Store) : Store :=
  let data := subDataOf p
  let sid := (data.lookup "id").getD .null
  if !sid.truthy then db
  else
    match db.licenses.find? (fun l => l.paddle_subscription_id == sid.pyStr) with
    | none => db
    | some lic =>
      { db with
        licenses := db.licenses.map
          (fun l => if l.id == lic.id then
            { lic with status := "cancelled", updated_at := now } else l) }

/-- The webhook route's response body. -/
inductive WebhookResponse where
  | ignored (reason : String)
  | success (event_type : String)
  deriving Repr, DecidableEq

/-- `paddle_webhook` route, after the signature has verified.  `parsed` is the
result of `json.loads(body)` (`none` = `JSONDecodeError`); `body` is the
(lossily) decoded body string and `sig` the `Paddle-Signature` header. -/
def paddle_webhook (body sig : String) (parsed : Option Json) (newTok : String)
    (now : Nat) (db : Store) : WebhookResponse × Store :=
  match parsed with
  | none =>
    let row : WebhookLog :=
      { event_type := "invalid_json", payload := body, signature := sig }
    (.ignored "invalid_json", { db with logs := db.logs ++ [row] })
  | some p =>
    let event_type := eventTypeOf p
    let row : WebhookLog :=
      { event_type := event_type, payload := p.dumps, signature := sig }
    let db := { db with logs := db.logs ++ [row] }
    let db :=
      if event_type == "subscription.created" || event_type == "subscription.updated" then
        handleSubscriptionEvent p newTok now db
      else if event_type == "transaction.completed" then
        handleTransactionCompleted p newTok now db
      else if event_type == "subscription.cancelled" then
        handleSubscriptionCancelled p now db
      else db
    (.success event_type, db)

/-! ## Helper lemmas about the verify engine -/

theorem bindMachine_usages (db : Store) (lid : Nat) (mid : String) :
    (bindMachine db lid mid).usages = db.usages := by
  unfold bindMachine; split <;> rfl

theorem bindMachine_licenses (db : Store) (lid : Nat) (mid : String) :
    (bindMachine db lid mid).licenses = db.licenses := by
  unfold bindMachine; split <;> rfl

theorem recordUsage_licenses (db : Store) (lid : Nat) (req : LicenseVerifyRequest) :
    (recordUsage db lid req).licenses = db.licenses := by
  unfold recordUsage; split <;> [skip; rfl]; split <;> rfl

theorem verify_not_found (req : LicenseVerifyRequest) (db : Store)
    (hfind : db.licenses.find? (fun l => l.paddle_subscription_id == req.license_key) = none) :
    verify_license req db = ({ valid := false, message := "License not found" }, db) := by
  unfold verify_license; rw [hfind]

theorem verify_inactive (req : LicenseVerifyRequest) (db : Store) (lic : License)
    (hfind : db.licenses.find? (fun l => l.paddle_subscription_id == req.license_key) = some lic)
    (hs : lic.status ≠ "active") :
    verify_license req db =
      ({ valid := false,
         message := "License is " ++ lic.status ++ ". Only active licenses are valid." }, db) := by
  unfold verify_license; rw [hfind]; simp [hs]

theorem verify_reject_quota (req : LicenseVerifyRequest) (db : Store) (lic : License)
    (hfind : db.licenses.find? (fun l => l.paddle_subscription_id == req.license_key) = some lic)
    (hactive : lic.status = "active")
    (hq : quotaReject db lic req.container_id = true) :
    verify_license req db =
      ({ valid := false,
         message := "Container limit reached. Allowed: " ++
           toString lic.allowed_containers ++ ", Current: " ++
           toString (usageCount db lic.id),
         allowed_containers := some lic.allowed_containers,
         current_usage := some (usageCount db lic.id) }, db) := by
  unfold verify_license; rw [hfind]; simp [hactive, hq]

theorem verify_accept (req : LicenseVerifyRequest) (db : Store) (lic : License)
    (hfind : db.licenses.find? (fun l => l.paddle_subscription_id == req.license_key) = some lic)
    (hactive : lic.status = "active")
    (hq : quotaReject db lic req.container_id = false) :
    verify_license req db =
      ({ valid := true, message := "License verified and bound to machine",
         license_id := some lic.id,
         allowed_containers := some lic.allowed_containers,
         current_usage := some (usageCount
           (bindMachine (recordUsage db lic.id req) lic.id req.machine_id) lic.id) },
       bindMachine (recordUsage db lic.id req) lic.id req.machine_id) := by
  unfold verify_license; rw [hfind]; simp [hactive, hq]

/-! ## Sample rows and stores used by witnesses and counterexamples -/

/-- An empty store. -/
def emptyStore : Store :=
  { customers := [], licenses := [], usages := [], bindings := [],
    tokens := [], logs := [], nextId := 1 }

/-- An active license with a quota of 2. -/
def licA : License :=
  { id := 1, paddle_subscription_id := "KEY-A", email := some "user@example.com",
    allowed_containers := 2, customer_id := none, status := "active",
    created_at := 0, updated_at := 0 }

/-- An active license with the unlimited sentinel. -/
def licU : License :=
  { id := 2, paddle_subscription_id := "KEY-U", email := none,
    allowed_containers := -1, customer_id := none, status := "active",
    created_at := 0, updated_at := 0 }

/-- A store holding `licA` and nothing else. -/
def storeA : Store := { emptyStore with licenses := [licA], nextId := 10 }

/-- A usage row of `licU`. -/
def usageX : LicenseUsage :=
  { id := 3, license_id := 2, machine_id := "m0", container_id := some "x" }

/-- Another usage row of `licU`. -/
def usageY : LicenseUsage :=
  { id := 4, license_id := 2, machine_id := "m0", container_id := some "y" }

/-- A store holding `licU` together with two existing usage rows. -/
def storeU : Store :=
  { emptyStore with licenses := [licU], usages := [usageX, usageY], nextId := 10 }

/-- A usage row of `licA` for container `c0`. -/
def usageC0 : LicenseUsage :=
  { id := 5, license_id := 1, machine_id := "m0", container_id := some "c0" }

/-- A usage row of `licA` for container `c1`. -/
def usageC1 : LicenseUsage :=
  { id := 6, license_id := 1, machine_id := "m0", container_id := some "c1" }

/-- `storeA` with the quota of `licA` fully consumed. -/
def storeAFull : Store := { storeA with usages := [usageC0, usageC1] }

/-! ## Claim theorems -/

/-- C3: for every license with `allowed_containers = -1` and status `"active"`,
`verify_license` returns `valid = true` for every machine id and every
(present or omitted) container id, regardless of the `LicenseUsage` rows in
the store: the quota check is skipped entirely under the unlimited sentinel. -/
theorem verify_unlimited_sentinel_always_valid
    (req : LicenseVerifyRequest) (db : Store) (lic : License)
    (hfind : db.licenses.find? (fun l => l.paddle_subscription_id == req.license_key) = some lic)
    (hactive : lic.status = "active")
    (hunlim : lic.allowed_containers = -1) :
    (verify_license req db).1.valid = true := by
  have hq : quotaReject db lic req.container_id = false := by
    unfold quotaReject; simp [hunlim]
  rw [verify_accept req db lic hfind hactive hq]

/-- Witness for C3 at a concrete store with two existing usage rows. -/
theorem verify_unlimited_sentinel_always_valid_witness :
    (verify_license ⟨"KEY-U", "mach", none⟩ storeU).1.valid = true :=
  verify_unlimited_sentinel_always_valid _ _ licU (by decide) (by decide) (by decide)

/-- C10: every `verify_license` call that answers `valid = false` — unknown
key, inactive status, or container limit reached — returns the store
unchanged: no usage row, no binding row, and no license field is created or
modified on a rejection. -/
theorem verify_reject_leaves_store_unchanged
    (req : LicenseVerifyRequest) (db : Store)
    (h : (verify_license req db).1.valid = false) :
    (verify_license req db).2 = db := by
  cases hfind : db.licenses.find? (fun l => l.paddle_subscription_id == req.license_key) with
  | none => rw [verify_not_found req db hfind]
  | some lic =>
    by_cases hs : lic.status = "active"
    · cases hq : quotaReject db lic req.container_id with
      | true => rw [verify_reject_quota req db lic hfind hs hq]
      | false =>
        rw [verify_accept req db lic hfind hs hq] at h
        exact absurd h (by simp)
    · rw [verify_inactive req db lic hfind hs]

/-- Witness for C10: a quota rejection at a concrete store leaves it intact. -/
theorem verify_reject_leaves_store_unchanged_witness :
    (verify_license ⟨"KEY-A", "m9", some "c9"⟩ storeAFull).1.valid = false ∧
    (verify_license ⟨"KEY-A", "m9", some "c9"⟩ storeAFull).2 = storeAFull :=
  ⟨by decide, verify_reject_leaves_store_unchanged _ _ (by decide)⟩

/-- A magic token of `licA` that is already redeemed but not yet expired. -/
def tokUsed : MagicToken :=
  { id := 1, token := "tok-used", license_id := 1, expires_at := 100,
    used_at := some 5, created_at := 0 }

/-- `storeA` together with the redeemed-but-unexpired token. -/
def storeC1 : Store := { storeA with tokens := [tokUsed] }

/-- C1 counterexample: at time 10 the token `"tok-used"` is already redeemed
(`used_at = 5`) and not yet time-expired (`expires_at = 100`), yet the
magic-link info endpoint answers the 404 "Invalid or expired token" error
instead of the license snapshot the claim promises. -/
theorem verify_magic_link_rejects_used_token_cex :
    tokUsed.used_at ≠ none ∧ 10 < tokUsed.expires_at ∧
    verify_magic_link "tok-used" 10 storeC1 =
      .error ⟨404, "Invalid or expired token"⟩ := by
  refine ⟨by decide, by decide, ?_⟩
  rfl

/-- C1 (amended): the info endpoint applies the same single-use validity
predicate as redemption: once every stored row of a token has `used_at` set,
`verify_magic_link` fails with the 404 "Invalid or expired token" error even
before time expiry, and `claim_license` on the same token also fails. -/
theorem verify_magic_link_used_token_rejected
    (db : Store) (tk mid : String) (now : Nat)
    (hused : ∀ t ∈ db.tokens, t.token = tk → t.used_at ≠ none) :
    verify_magic_link tk now db = .error ⟨404, "Invalid or expired token"⟩ ∧
    (claim_license tk mid now db).1 =
      { success := false, message := "Invalid or expired token" } := by
  have hnone : db.tokens.find? (claimTokenMatch tk now) = none := by
    rw [List.find?_eq_none]
    intro t ht
    unfold claimTokenMatch
    simp only [Bool.and_eq_true, beq_iff_eq, Option.isNone_iff_eq_none,
      decide_eq_true_eq, not_and]
    intro h1 h2
    exact absurd h1.2 (hused t ht h1.1)
  constructor
  · unfold verify_magic_link; rw [hnone]
  · unfold claim_license; rw [hnone]

/-- Witness for the amended C1 at the concrete used-token store. -/
theorem verify_magic_link_used_token_rejected_witness :
    verify_magic_link "tok-used" 10 storeC1 =
      .error ⟨404, "Invalid or expired token"⟩ ∧
    (claim_license "tok-used" "m1" 10 storeC1).1 =
      { success := false, message := "Invalid or expired token" } :=
  verify_magic_link_used_token_rejected storeC1 "tok-used" "m1" 10 (by decide)

/-- C5: once the signature has been accepted, an unparseable JSON body makes
the webhook route write exactly one `WebhookLog` row — event type
`"invalid_json"`, the lossily decoded body, the signature header — commit it,
touch no Customer/License/MagicToken (nor usage/binding) state, and answer
the success-shaped ignored response instead of an HTTP error. -/
theorem webhook_invalid_json_only_logs
    (body sig newTok : String) (now : Nat) (db : Store) :
    (paddle_webhook body sig none newTok now db).1 = .ignored "invalid_json" ∧
    (paddle_webhook body sig none newTok now db).2.customers = db.customers ∧
    (paddle_webhook body sig none newTok now db).2.licenses = db.licenses ∧
    (paddle_webhook body sig none newTok now db).2.tokens = db.tokens ∧
    (paddle_webhook body sig none newTok now db).2.usages = db.usages ∧
    (paddle_webhook body sig none newTok now db).2.bindings = db.bindings ∧
    (paddle_webhook body sig none newTok now db).2.logs =
      db.logs ++ [WebhookLog.mk "invalid_json" body sig] :=
  ⟨rfl, rfl, rfl, rfl, rfl, rfl, rfl⟩

/-- C4: the webhook signature gate: a missing (or empty, hence falsy) header
fails with 400; a header whose `;`-separated `k=v` pairs lack `ts` or `h1`
(unknown keys ignored by the parser) fails with 400; otherwise the request is
accepted exactly when `h1` equals the hex HMAC of `"ts:body"` under the
secret — a mismatch fails with 401 — and on acceptance the raw body is
returned unmodified.  `hmacHex` abstracts `hmac.new(..., sha256).hexdigest()`. -/
theorem verify_paddle_signature_spec
    (hmacHex : String → String → String) (secret body : String)
    (header : Option String) :
    ((header.getD "").isEmpty = true →
      verify_paddle_signature hmacHex secret header body =
        .error ⟨400, "Missing Paddle-Signature header"⟩) ∧
    (∀ h, header = some h → h.isEmpty = false →
      parse_paddle_signature_header h = none →
      verify_paddle_signature hmacHex secret header body =
        .error ⟨400, "Malformed Paddle-Signature header"⟩) ∧
    (∀ h ts h1, header = some h → h.isEmpty = false →
      parse_paddle_signature_header h = some (ts, h1) →
      verify_paddle_signature hmacHex secret header body =
        (if h1 = hmacHex secret (ts ++ ":" ++ body) then .ok body
         else .error ⟨401, "Invalid webhook signature"⟩)) := by
  refine ⟨?_, ?_, ?_⟩
  · intro hm
    unfold verify_paddle_signature
    simp [hm]
  · intro h hh hne hp
    subst hh
    unfold verify_paddle_signature
    simp [hne, hp]
  · intro h ts h1 hh hne hp
    subst hh
    unfold verify_paddle_signature
    simp only [Option.getD_some, hne, Bool.false_eq_true, if_false, hp]
    by_cases he : h1 = hmacHex secret (ts ++ ":" ++ body)
    · simp [he]
    · simp [he, Ne.symm he]

/-- Witness for C4: a concrete header/body pair that verifies, under a
concrete stand-in digest function. -/
theorem verify_paddle_signature_spec_witness :
    verify_paddle_signature (fun s m => s ++ "|" ++ m) "sec"
      (some "ts=1;h1=sec|1:B") "B" = .ok "B" := by
  have h := (verify_paddle_signature_spec (fun s m => s ++ "|" ++ m) "sec" "B"
      (some "ts=1;h1=sec|1:B")).2.2 "ts=1;h1=sec|1:B" "1" "sec|1:B"
      rfl (by decide) (by decide)
  rw [h]
  exact if_pos (by decide)

/-- Usage queries restricted to a license come up empty when the license has
no usage rows at all. -/
theorem find_usage_none_of_no_rows {us : List LicenseUsage} {lid : Nat}
    (h : us.filter (fun u => u.license_id == lid) = [])
    (p : LicenseUsage → Bool) :
    us.find? (fun u => u.license_id == lid && p u) = none := by
  rw [List.find?_eq_none]
  intro u hu
  have hn := List.filter_eq_nil_iff.mp h u hu
  simp only [Bool.and_eq_true, not_and]
  intro h1
  exact absurd h1 hn

/-- C9: after `reset-containers` on an existing license the usage count of
that license is 0, and a verify call — e.g. with a container id that was
previously rejected for quota — now returns `valid = true`, for an active
license with `allowed_containers >= 1`. -/
theorem reset_containers_clears_and_unblocks
    (adminKey : String) (db : Store) (lid : Nat) (lic0 lic : License)
    (req : LicenseVerifyRequest)
    (hkey : adminKey.isEmpty = false)
    (hlic0 : db.licenses.find? (fun l => l.id == lid) = some lic0)
    (hfind : db.licenses.find? (fun l => l.paddle_subscription_id == req.license_key) = some lic)
    (hid : lic.id = lid)
    (hactive : lic.status = "active")
    (hallowed : 1 ≤ lic.allowed_containers) :
    ∃ db', reset_containers adminKey (some adminKey) lid db =
        .ok ("Container usage reset", db') ∧
      usageCount db' lid = 0 ∧
      (verify_license req db').1.valid = true := by
  refine ⟨{ db with usages := db.usages.filter (fun u => !(u.license_id == lid)) },
    ?_, ?_, ?_⟩
  · unfold reset_containers verify_admin_api_key
    simp [hkey, hlic0]
  · unfold usageCount
    simp only [List.filter_filter]
    simp
  · have hcount : usageCount
        { db with usages := db.usages.filter (fun u => !(u.license_id == lid)) } lic.id = 0 := by
      unfold usageCount
      simp only [hid, List.filter_filter]
      simp
    have hnew : ∀ cid, findUsage
        { db with usages := db.usages.filter (fun u => !(u.license_id == lid)) } lic.id cid
        = none := by
      intro cid
      unfold findUsage
      rw [List.find?_eq_none]
      intro u hu
      have := (List.mem_filter.mp hu).2
      simp only [Bool.and_eq_true, not_and, hid]
      intro h1
      simp [h1] at this
    have hne : lic.allowed_containers ≠ -1 := by omega
    have hdec : decide ((0 : Int) ≥ lic.allowed_containers) = false :=
      decide_eq_false (by omega)
    have hq : quotaReject
        { db with usages := db.usages.filter (fun u => !(u.license_id == lid)) }
        lic req.container_id = false := by
      unfold quotaReject
      rw [hcount, hnew]
      simp only [Option.isNone_none, Bool.true_and, Nat.cast_zero, hdec]
      simp [hne]
    rw [verify_accept req
      { db with usages := db.usages.filter (fun u => !(u.license_id == lid)) }
      lic hfind hactive hq]

/-- Witness for C9: the full `licA` store, where container `c9` was just
rejected (see the C10 witness), is reset and `c9` is admitted. -/
theorem reset_containers_clears_and_unblocks_witness :
    ∃ db', reset_containers "adm" (some "adm") 1 storeAFull =
        .ok ("Container usage reset", db') ∧
      usageCount db' 1 = 0 ∧
      (verify_license ⟨"KEY-A", "m9", some "c9"⟩ db').1.valid = true :=
  reset_containers_clears_and_unblocks "adm" storeAFull 1 licA licA
    ⟨"KEY-A", "m9", some "c9"⟩ (by decide) (by decide) (by decide)
    (by decide) (by decide) (by decide)

/-- When the redemption query comes up empty, `claim_license` fails and
returns the store untouched. -/
theorem claim_license_fail (tk mid : String) (now : Nat) (db : Store)
    (h : db.tokens.find? (claimTokenMatch tk now) = none) :
    claim_license tk mid now db =
      ({ success := false, message := "Invalid or expired token" }, db) := by
  unfold claim_license
  rw [h]

/-- With a unique stored row for a token, the redemption query answers that
row exactly when it is unused and unexpired. -/
theorem find_claim_token (db : Store) (tk : String) (now : Nat) (mt : MagicToken)
    (hmem : mt ∈ db.tokens)
    (huniq : ∀ t ∈ db.tokens, t.token = tk → t = mt)
    (htk : mt.token = tk) :
    db.tokens.find? (claimTokenMatch tk now) =
      (if mt.used_at = none ∧ now < mt.expires_at then some mt else none) := by
  by_cases hv : mt.used_at = none ∧ now < mt.expires_at
  · rw [if_pos hv]
    cases hf : db.tokens.find? (claimTokenMatch tk now) with
    | none =>
      exfalso
      refine List.find?_eq_none.mp hf mt hmem ?_
      unfold claimTokenMatch
      simp [htk, hv.1, hv.2]
    | some t =>
      have hp := List.find?_some hf
      unfold claimTokenMatch at hp
      simp only [Bool.and_eq_true, beq_iff_eq] at hp
      have := huniq t (List.mem_of_find?_eq_some hf) hp.1.1
      rw [this]
  · rw [if_neg hv]
    rw [List.find?_eq_none]
    intro t ht
    unfold claimTokenMatch
    simp only [Bool.and_eq_true, beq_iff_eq, Option.isNone_iff_eq_none,
      decide_eq_true_eq, not_and]
    intro h1 h2
    have heq := huniq t ht h1.1
    subst heq
    exact hv ⟨h1.2, h2⟩

/-- C8: magic-token redemption succeeds exactly when `used_at` is null and
the current time is before `expires_at`; on success it marks the token used
and guarantees a machine binding for `(license_id, machine_id)`, so any later
redemption of the same token fails with "Invalid or expired token" even
before time expiry; a failed redemption mutates no state. -/
theorem claim_license_single_use
    (db : Store) (tk mid : String) (now : Nat) (mt : MagicToken)
    (hmem : mt ∈ db.tokens)
    (huniq : ∀ t ∈ db.tokens, t.token = tk → t = mt)
    (htk : mt.token = tk) :
    ((claim_license tk mid now db).1.success =
        (mt.used_at.isNone && decide (now < mt.expires_at))) ∧
    (mt.used_at = none → now < mt.expires_at →
      (∀ t ∈ (claim_license tk mid now db).2.tokens,
          t.token = tk → t.used_at = some now) ∧
      (∃ b ∈ (claim_license tk mid now db).2.bindings,
          b.license_id = mt.license_id ∧ b.machine_id = mid) ∧
      (∀ now2 mid2,
        (claim_license tk mid2 now2 (claim_license tk mid now db).2).1 =
          { success := false, message := "Invalid or expired token" })) ∧
    ((claim_license tk mid now db).1.success = false →
      (claim_license tk mid now db).2 = db) := by
  have hfind := find_claim_token db tk now mt hmem huniq htk
  by_cases hv : mt.used_at = none ∧ now < mt.expires_at
  · rw [if_pos hv] at hfind
    have hred1 : (claim_license tk mid now db).1 =
        { success := true, message := "License claimed successfully",
          license_id := some mt.license_id } := by
      unfold claim_license
      rw [hfind]
    have htoks : (claim_license tk mid now db).2.tokens =
        db.tokens.map (fun t => if t.id == mt.id then { t with used_at := some now } else t) := by
      unfold claim_license
      rw [hfind]
      dsimp only
      split <;> rfl
    have hused : ∀ t ∈ (claim_license tk mid now db).2.tokens,
        t.token = tk → t.used_at = some now := by
      rw [htoks]
      intro t' ht' htk'
      obtain ⟨t, ht, hft⟩ := List.mem_map.mp ht'
      by_cases hidm : (t.id == mt.id) = true
      · rw [if_pos hidm] at hft
        rw [← hft]
      · rw [if_neg hidm] at hft
        subst hft
        have := huniq t ht htk'
        subst this
        simp at hidm
    refine ⟨?_, fun _ _ => ⟨hused, ?_, ?_⟩, ?_⟩
    · rw [hred1]
      simp [hv.1, hv.2]
    · -- the binding exists after redemption
      cases hb : db.bindings.find?
          (fun b => b.license_id == mt.license_id && b.machine_id == mid) with
      | none =>
        have hbind : (claim_license tk mid now db).2.bindings =
            db.bindings ++ [MachineBinding.mk db.nextId mt.license_id mid] := by
          unfold claim_license
          rw [hfind]
          dsimp only
          rw [hb]
          rfl
        exact ⟨MachineBinding.mk db.nextId mt.license_id mid,
          by rw [hbind]; exact List.mem_append_right _ (by simp), rfl, rfl⟩
      | some b =>
        have hbind : (claim_license tk mid now db).2.bindings = db.bindings := by
          unfold claim_license
          rw [hfind]
          dsimp only
          rw [hb]
          rfl
        have hp := List.find?_some hb
        simp only [Bool.and_eq_true, beq_iff_eq] at hp
        exact ⟨b, by rw [hbind]; exact List.mem_of_find?_eq_some hb, hp.1, hp.2⟩
    · -- second redemption fails
      intro now2 mid2
      have hnone2 : (claim_license tk mid now db).2.tokens.find?
          (claimTokenMatch tk now2) = none := by
        rw [List.find?_eq_none]
        intro t' ht'
        unfold claimTokenMatch
        simp only [Bool.and_eq_true, beq_iff_eq, Option.isNone_iff_eq_none,
          decide_eq_true_eq, not_and]
        intro h1 _
        rw [hused t' ht' h1.1] at h1
        exact absurd h1.2 (by simp)
      rw [claim_license_fail tk mid2 now2 _ hnone2]
    · intro hfail
      rw [hred1] at hfail
      simp at hfail
  · rw [if_neg hv] at hfind
    have hred := claim_license_fail tk mid now db hfind
    refine ⟨?_, fun h1 h2 => absurd ⟨h1, h2⟩ hv, fun _ => by rw [hred]⟩
    rw [hred]
    rcases hv2 : mt.used_at with _ | u
    · simp only [Option.isNone_none, Bool.true_and]
      have : ¬ now < mt.expires_at := fun hlt => hv ⟨hv2, hlt⟩
      simp [this]
    · simp

/-- A fresh (unused, unexpired) magic token of `licA`. -/
def tokFresh : MagicToken :=
  { id := 2, token := "tok-fresh", license_id := 1, expires_at := 100,
    used_at := none, created_at := 0 }

/-- `storeA` together with the fresh token. -/
def storeC8 : Store := { storeA with tokens := [tokFresh] }

/-- Witness for C8: the first redemption succeeds; the second, still before
expiry, fails with the fixed message. -/
theorem claim_license_single_use_witness :
    (claim_license "tok-fresh" "m1" 10 storeC8).1.success = true ∧
    (claim_license "tok-fresh" "m2" 20 (claim_license "tok-fresh" "m1" 10 storeC8).2).1 =
      { success := false, message := "Invalid or expired token" } := by
  have h := claim_license_single_use storeC8 "tok-fresh" "m1" 10 tokFresh
    (by decide) (by decide) (by decide)
  exact ⟨by rw [h.1]; rfl, (h.2.1 rfl (by decide)).2.2 20 "m2"⟩

/-- Filters restricted to a license come up empty when the license has no
usage rows at all. -/
theorem filter_usage_nil_of_no_rows {us : List LicenseUsage} {lid : Nat}
    (h : us.filter (fun u => u.license_id == lid) = [])
    (p : LicenseUsage → Bool) :
    us.filter (fun u => u.license_id == lid && p u) = [] := by
  rw [List.filter_eq_nil_iff]
  intro u hu
  have hn := List.filter_eq_nil_iff.mp h u hu
  simp only [Bool.and_eq_true, not_and]
  intro h1
  exact absurd h1 hn

/-- A truthy, untracked container id makes `recordUsage` append one row. -/
theorem recordUsage_usages_new (db : Store) (lid : Nat) (req : LicenseVerifyRequest)
    (hc : cidTruthy req.container_id = true)
    (hnew : findUsage db lid req.container_id = none) :
    (recordUsage db lid req).usages =
      db.usages ++ [LicenseUsage.mk db.nextId lid req.machine_id req.container_id] := by
  unfold recordUsage
  rw [hc, if_pos rfl, hnew]
  rfl

/-- A tracked container id makes `recordUsage` a no-op. -/
theorem recordUsage_tracked (db : Store) (lid : Nat) (req : LicenseVerifyRequest)
    (u : LicenseUsage) (hex : findUsage db lid req.container_id = some u) :
    recordUsage db lid req = db := by
  unfold recordUsage
  split
  · rw [hex]
    rfl
  · rfl

/-- C2: for an active license with `allowed_containers = 2` and no existing
usage rows, three verify calls with three pairwise-distinct new container ids
answer `valid = true, true, false` in submission order; a fourth call
repeating the first container id answers `valid = true` even though the quota
is full, and the store still holds exactly one `LicenseUsage` row for that
`(license_id, container_id)` pair. -/
theorem verify_quota_sequence
    (db : Store) (key m1 m2 m3 m4 c1 c2 c3 : String) (lic : License)
    (hfind : db.licenses.find? (fun l => l.paddle_subscription_id == key) = some lic)
    (hactive : lic.status = "active")
    (hallowed : lic.allowed_containers = 2)
    (hempty : db.usages.filter (fun u => u.license_id == lic.id) = [])
    (hc1 : c1 ≠ "") (hc2 : c2 ≠ "") (hc3 : c3 ≠ "")
    (h12 : c1 ≠ c2) (h13 : c1 ≠ c3) (h23 : c2 ≠ c3) :
    (verify_license ⟨key, m1, some c1⟩ db).1.valid = true ∧
    (verify_license ⟨key, m2, some c2⟩
      (verify_license ⟨key, m1, some c1⟩ db).2).1.valid = true ∧
    (verify_license ⟨key, m3, some c3⟩
      (verify_license ⟨key, m2, some c2⟩
        (verify_license ⟨key, m1, some c1⟩ db).2).2).1.valid = false ∧
    (verify_license ⟨key, m4, some c1⟩
      (verify_license ⟨key, m3, some c3⟩
        (verify_license ⟨key, m2, some c2⟩
          (verify_license ⟨key, m1, some c1⟩ db).2).2).2).1.valid = true ∧
    ((verify_license ⟨key, m4, some c1⟩
      (verify_license ⟨key, m3, some c3⟩
        (verify_license ⟨key, m2, some c2⟩
          (verify_license ⟨key, m1, some c1⟩ db).2).2).2).2.usages.filter
        (fun u => u.license_id == lic.id && u.container_id == some c1)).length = 1 := by
  have hce1 : c1.isEmpty = false := by
    rw [Bool.eq_false_iff]
    intro h
    exact hc1 ((String.isEmpty_iff c1).mp h)
  have hce2 : c2.isEmpty = false := by
    rw [Bool.eq_false_iff]
    intro h
    exact hc2 ((String.isEmpty_iff c2).mp h)
  have hce3 : c3.isEmpty = false := by
    rw [Bool.eq_false_iff]
    intro h
    exact hc3 ((String.isEmpty_iff c3).mp h)
  have hct1 : cidTruthy (some c1) = true := by simp [cidTruthy, hce1]
  have hct2 : cidTruthy (some c2) = true := by simp [cidTruthy, hce2]
  have hct3 : cidTruthy (some c3) = true := by simp [cidTruthy, hce3]
  -- call 1: new container c1 admitted at usage 0 of 2
  have hcount0 : usageCount db lic.id = 0 := by
    unfold usageCount
    rw [hempty]
    rfl
  have hfu1 : findUsage db lic.id (some c1) = none :=
    find_usage_none_of_no_rows hempty _
  have hq1 : quotaReject db lic (some c1) = false := by
    unfold quotaReject
    rw [hct1, hcount0, hallowed]
    simp
  have e1 := verify_accept ⟨key, m1, some c1⟩ db lic hfind hactive hq1
  set db1 := (verify_license ⟨key, m1, some c1⟩ db).2 with hdb1
  have us1 : db1.usages = db.usages ++ [LicenseUsage.mk db.nextId lic.id m1 (some c1)] := by
    rw [hdb1, e1]
    dsimp only
    rw [bindMachine_usages]
    exact recordUsage_usages_new db lic.id _ hct1 hfu1
  have lics1 : db1.licenses = db.licenses := by
    rw [hdb1, e1]
    dsimp only
    rw [bindMachine_licenses, recordUsage_licenses]
  have val1 : (verify_license ⟨key, m1, some c1⟩ db).1.valid = true := by
    rw [e1]
  -- call 2: new container c2 admitted at usage 1 of 2
  have hfind2 : db1.licenses.find? (fun l => l.paddle_subscription_id == key) = some lic := by
    rw [lics1]
    exact hfind
  have filter1 : db1.usages.filter (fun u => u.license_id == lic.id) =
      [LicenseUsage.mk db.nextId lic.id m1 (some c1)] := by
    rw [us1, List.filter_append, hempty]
    simp
  have hcount1 : usageCount db1 lic.id = 1 := by
    unfold usageCount
    rw [filter1]
    rfl
  have hq2 : quotaReject db1 lic (some c2) = false := by
    unfold quotaReject
    rw [hct2, hcount1, hallowed]
    simp
  have hfu2 : findUsage db1 lic.id (some c2) = none := by
    unfold findUsage
    rw [us1, List.find?_append]
    rw [find_usage_none_of_no_rows hempty (fun u => u.container_id == some c2)]
    simp [List.find?_cons, h12]
  have e2 := verify_accept ⟨key, m2, some c2⟩ db1 lic hfind2 hactive hq2
  set db2 := (verify_license ⟨key, m2, some c2⟩ db1).2 with hdb2
  have us2 : db2.usages = (db.usages ++ [LicenseUsage.mk db.nextId lic.id m1 (some c1)]) ++
      [LicenseUsage.mk db1.nextId lic.id m2 (some c2)] := by
    rw [hdb2, e2]
    dsimp only
    rw [bindMachine_usages]
    rw [recordUsage_usages_new db1 lic.id _ hct2 hfu2]
    rw [us1]
  have lics2 : db2.licenses = db.licenses := by
    rw [hdb2, e2]
    dsimp only
    rw [bindMachine_licenses, recordUsage_licenses]
    exact lics1
  have val2 : (verify_license ⟨key, m2, some c2⟩ db1).1.valid = true := by
    rw [e2]
  -- call 3: new container c3 rejected at usage 2 of 2
  have hfind3 : db2.licenses.find? (fun l => l.paddle_subscription_id == key) = some lic := by
    rw [lics2]
    exact hfind
  have filter2 : db2.usages.filter (fun u => u.license_id == lic.id) =
      [LicenseUsage.mk db.nextId lic.id m1 (some c1),
       LicenseUsage.mk db1.nextId lic.id m2 (some c2)] := by
    rw [us2, List.filter_append, List.filter_append, hempty]
    simp
  have hcount2 : usageCount db2 lic.id = 2 := by
    unfold usageCount
    rw [filter2]
    rfl
  have hfu3 : findUsage db2 lic.id (some c3) = none := by
    unfold findUsage
    rw [us2, List.find?_append, List.find?_append]
    rw [find_usage_none_of_no_rows hempty (fun u => u.container_id == some c3)]
    simp [List.find?_cons, h13, h23]
  have hq3 : quotaReject db2 lic (some c3) = true := by
    unfold quotaReject
    rw [hct3, hcount2, hallowed, hfu3]
    simp
  have e3 := verify_reject_quota ⟨key, m3, some c3⟩ db2 lic hfind3 hactive hq3
  have val3 : (verify_license ⟨key, m3, some c3⟩ db2).1.valid = false := by
    rw [e3]
  have st3 : (verify_license ⟨key, m3, some c3⟩ db2).2 = db2 := by
    rw [e3]
  -- call 4: repeat container c1, re-verification admitted at full quota
  have hfu4 : findUsage db2 lic.id (some c1) =
      some (LicenseUsage.mk db.nextId lic.id m1 (some c1)) := by
    unfold findUsage
    rw [us2, List.find?_append, List.find?_append]
    rw [find_usage_none_of_no_rows hempty (fun u => u.container_id == some c1)]
    simp [List.find?_cons]
  have hq4 : quotaReject db2 lic (some c1) = false := by
    unfold quotaReject
    rw [hct1, hfu4, hallowed]
    simp
  have e4 := verify_accept ⟨key, m4, some c1⟩ db2 lic hfind3 hactive hq4
  have val4 : (verify_license ⟨key, m4, some c1⟩ db2).1.valid = true := by
    rw [e4]
  have us4 : (verify_license ⟨key, m4, some c1⟩ db2).2.usages = db2.usages := by
    rw [e4]
    dsimp only
    rw [bindMachine_usages]
    rw [recordUsage_tracked db2 lic.id _ _ hfu4]
  have final : ((verify_license ⟨key, m4, some c1⟩ db2).2.usages.filter
      (fun u => u.license_id == lic.id && u.container_id == some c1)).length = 1 := by
    rw [us4, us2, List.filter_append, List.filter_append]
    rw [filter_usage_nil_of_no_rows hempty (fun u => u.container_id == some c1)]
    simp [h12.symm]
  rw [st3]
  exact ⟨val1, val2, val3, val4, final⟩

/-- Witness for C2 on the concrete `storeA` (quota 2, no usage rows). -/
theorem verify_quota_sequence_witness :
    (verify_license ⟨"KEY-A", "m1", some "c1"⟩ storeA).1.valid = true ∧
    (verify_license ⟨"KEY-A", "m2", some "c2"⟩
      (verify_license ⟨"KEY-A", "m1", some "c1"⟩ storeA).2).1.valid = true ∧
    (verify_license ⟨"KEY-A", "m3", some "c3"⟩
      (verify_license ⟨"KEY-A", "m2", some "c2"⟩
        (verify_license ⟨"KEY-A", "m1", some "c1"⟩ storeA).2).2).1.valid = false ∧
    (verify_license ⟨"KEY-A", "m4", some "c1"⟩
      (verify_license ⟨"KEY-A", "m3", some "c3"⟩
        (verify_license ⟨"KEY-A", "m2", some "c2"⟩
          (verify_license ⟨"KEY-A", "m1", some "c1"⟩ storeA).2).2).2).1.valid = true ∧
    ((verify_license ⟨"KEY-A", "m4", some "c1"⟩
      (verify_license ⟨"KEY-A", "m3", some "c3"⟩
        (verify_license ⟨"KEY-A", "m2", some "c2"⟩
          (verify_license ⟨"KEY-A", "m1", some "c1"⟩ storeA).2).2).2).2.usages.filter
        (fun u => u.license_id == licA.id && u.container_id == some "c1")).length = 1 :=
  verify_quota_sequence storeA "KEY-A" "m1" "m2" "m3" "m4" "c1" "c2" "c3" licA
    (by decide) (by decide) (by decide) (by decide) (by decide)
    (by decide) (by decide) (by decide) (by decide) (by decide)

/-- C7: a `transaction.completed` event without `data.subscription_id` only
writes the audit-log row — no License, Customer or MagicToken mutation — and
still answers success; when a subscription id is present the quota resolution
gives a `PLAN_MAX_CONTAINERS` plan-table mapping precedence, and a positive
integer `items[0].quantity` determines the quota only when the plan name has
no table mapping. -/
theorem webhook_transaction_completed_spec :
    (∀ (body sig newTok : String) (now : Nat) (db : Store) (p : Json),
      eventTypeOf p = "transaction.completed" →
      (((subDataOf p).lookup "subscription_id").getD .null).truthy = false →
      paddle_webhook body sig (some p) newTok now db =
        (.success "transaction.completed",
         { db with logs :=
            db.logs ++ [WebhookLog.mk "transaction.completed" p.dumps sig] })) ∧
    (∀ (data : Json) (m : Int), planLookup (txnPlanNameOf data) = some m →
      txnQuotaOf data = m) ∧
    (∀ data : Json, planLookup (txnPlanNameOf data) = none →
      txnQuotaOf data = txnQtyDefault data) ∧
    (∀ (data first_item : Json) (rest : List Json) (q : Int),
      planLookup (txnPlanNameOf data) = none →
      pyOr ((data.lookup "items").getD .null) (.arr []) = .arr (first_item :: rest) →
      (pyOr first_item (.obj [])).lookup "quantity" = some (.num q) →
      0 < q →
      txnQuotaOf data = q) := by
  refine ⟨?_, ?_, ?_, ?_⟩
  · intro body sig newTok now db p he hsid
    have hskip : handleTransactionCompleted p newTok now
        { db with logs :=
          db.logs ++ [WebhookLog.mk "transaction.completed" p.dumps sig] } =
        { db with logs :=
          db.logs ++ [WebhookLog.mk "transaction.completed" p.dumps sig] } := by
      unfold handleTransactionCompleted
      dsimp only
      rw [hsid]
      rfl
    unfold paddle_webhook
    dsimp only
    rw [he, if_neg (by decide), if_pos (by decide), hskip]
  · intro data m hm
    unfold txnQuotaOf
    rw [hm]
  · intro data hn
    unfold txnQuotaOf
    rw [hn]
  · intro data first_item rest q hn hitems hq hpos
    unfold txnQuotaOf
    rw [hn]
    unfold txnQtyDefault
    rw [hitems]
    dsimp only
    rw [hq]
    exact if_pos (by exact_mod_cast hpos)

/-- A `transaction.completed` payload carrying no `subscription_id`. -/
def payTxnNoSub : Json :=
  .obj [("event_type", .str "transaction.completed"),
        ("data", .obj [("id", .str "txn1")])]

/-- An event `data` object with an unmapped plan name and quantity 7. -/
def dataQty7 : Json :=
  .obj [("subscription_id", .str "s1"),
        ("items", .arr [.obj [("price", .obj [("name", .str "weird")]),
                              ("quantity", .num 7)]])]

/-- Witness for C7: the no-subscription skip at a concrete payload, and the
quantity-based quota for a concrete unmapped plan. -/
theorem webhook_transaction_completed_spec_witness :
    paddle_webhook "B" "S" (some payTxnNoSub) "T" 7 storeA =
      (.success "transaction.completed",
       { storeA with logs :=
          storeA.logs ++ [WebhookLog.mk "transaction.completed" payTxnNoSub.dumps "S"] }) ∧
    txnQuotaOf dataQty7 = 7 :=
  ⟨webhook_transaction_completed_spec.1 "B" "S" "T" 7 storeA payTxnNoSub rfl rfl,
   webhook_transaction_completed_spec.2.2.2 dataQty7
     (.obj [("price", .obj [("name", .str "weird")]), ("quantity", .num 7)])
     [] 7 rfl rfl rfl (by decide)⟩

/-- Subscription id of a `subscription.*` payload, as stored (`str(...)`). -/
def subSidStrOf (p : Json) : String := (((subDataOf p).lookup "id").getD .null).pyStr

/-- Customer email of a `subscription.*` payload, as stored. -/
def subEmailStrOf (p : Json) : String := (subEmailOf (subDataOf p)).pyStr

/-- On a `subscription.created` event the route records the audit-log row and
delegates to the subscription handler. -/
theorem paddle_webhook_subscription_created
    (body sig newTok : String) (now : Nat) (db : Store) (p : Json)
    (he : eventTypeOf p = "subscription.created") :
    paddle_webhook body sig (some p) newTok now db =
      (.success "subscription.created",
       handleSubscriptionEvent p newTok now
         { db with logs := db.logs ++ [WebhookLog.mk "subscription.created" p.dumps sig] }) := by
  unfold paddle_webhook
  dsimp only
  rw [he, if_pos (by decide)]

/-- First delivery: with a truthy subscription id, a truthy email, no stored
customer for that email and no stored license for that subscription id, the
subscription handler creates one Customer, one License and one MagicToken. -/
theorem handleSubscriptionEvent_create
    (p : Json) (newTok : String) (now : Nat) (db : Store)
    (hsid : (((subDataOf p).lookup "id").getD .null).truthy = true)
    (hem : (subEmailOf (subDataOf p)).truthy = true)
    (hnocust : db.customers.find? (fun c => c.email == some (subEmailStrOf p)) = none)
    (hnolic : db.licenses.find?
      (fun l => l.paddle_subscription_id == subSidStrOf p) = none) :
    handleSubscriptionEvent p newTok now db =
      { db with
        customers := db.customers ++
          [Customer.mk db.nextId (some (subEmailStrOf p))
            (if ((subCustomerOf (subDataOf p)).lookup "id").getD .null |>.truthy
             then some (((subCustomerOf (subDataOf p)).lookup "id").getD .null).pyStr
             else none)],
        licenses := db.licenses ++
          [License.mk (db.nextId + 1) (subSidStrOf p) (some (subEmailStrOf p))
            (subAllowedOf (subDataOf p)) (some db.nextId)
            (subStatusOf (subDataOf p)) now now],
        tokens := db.tokens ++
          [MagicToken.mk (db.nextId + 2) newTok (db.nextId + 1)
            (get_token_expiry now) none now],
        nextId := db.nextId + 3 } := by
  unfold handleSubscriptionEvent
  dsimp only
  rw [hsid]
  rw [if_neg (by decide)]
  rw [hem, if_pos rfl]
  unfold subEmailStrOf at hnocust
  rw [hnocust]
  dsimp only
  unfold subSidStrOf at hnolic
  rw [hnolic]
  dsimp only
  rw [if_pos rfl]
  rfl

/-- The in-place overwrite a redelivered `subscription.*` event applies to an
existing license row. -/
def subUpdatedLicense (p : Json) (now : Nat) (c : Customer) (lic : License) : License :=
  { lic with
    status := subStatusOf (subDataOf p),
    email := some (subEmailStrOf p),
    allowed_containers := subAllowedOf (subDataOf p),
    customer_id := some c.id,
    updated_at := now }

/-- Second delivery: with the customer and the license already stored, the
subscription handler only overwrites the license row in place — no new
Customer, License or MagicToken row. -/
theorem handleSubscriptionEvent_update
    (p : Json) (newTok : String) (now : Nat) (db : Store)
    (c : Customer) (lic : License)
    (hsid : (((subDataOf p).lookup "id").getD .null).truthy = true)
    (hem : (subEmailOf (subDataOf p)).truthy = true)
    (hcust : db.customers.find? (fun x => x.email == some (subEmailStrOf p)) = some c)
    (hlic : db.licenses.find?
      (fun l => l.paddle_subscription_id == subSidStrOf p) = some lic) :
    handleSubscriptionEvent p newTok now db =
      { db with licenses := db.licenses.map (fun l =>
          if l.id == lic.id then subUpdatedLicense p now c lic else l) } := by
  unfold handleSubscriptionEvent
  dsimp only
  rw [hsid, if_neg (by decide)]
  rw [hem, if_pos rfl]
  unfold subEmailStrOf at hcust
  rw [hcust]
  dsimp only
  unfold subSidStrOf at hlic
  rw [hlic]
  rfl

/-- C6: processing the same `subscription.created` payload twice (same body,
same signature) is idempotent on entity counts: after the second delivery
there is still exactly one License row for that subscription id and exactly
one Customer row for that email; the second delivery overwrites the existing
License's status, email, allowed_containers and customer_id in place instead
of duplicating it, and issues no second magic token. -/
theorem webhook_subscription_created_replay
    (body sig tok1 tok2 : String) (now1 now2 : Nat) (db : Store) (p : Json)
    (he : eventTypeOf p = "subscription.created")
    (hsid : (((subDataOf p).lookup "id").getD .null).truthy = true)
    (hem : (subEmailOf (subDataOf p)).truthy = true)
    (hnolic : ∀ l ∈ db.licenses, l.paddle_subscription_id ≠ subSidStrOf p)
    (hnocust : ∀ c ∈ db.customers, c.email ≠ some (subEmailStrOf p))
    (hfresh : ∀ l ∈ db.licenses, l.id < db.nextId) :
    (((paddle_webhook body sig (some p) tok1 now1 db).2.licenses.filter
        (fun l => l.paddle_subscription_id == subSidStrOf p)).length = 1) ∧
    (((paddle_webhook body sig (some p) tok2 now2
        (paddle_webhook body sig (some p) tok1 now1 db).2).2.licenses.filter
        (fun l => l.paddle_subscription_id == subSidStrOf p)).length = 1) ∧
    (((paddle_webhook body sig (some p) tok1 now1 db).2.customers.filter
        (fun c => c.email == some (subEmailStrOf p))).length = 1) ∧
    (((paddle_webhook body sig (some p) tok2 now2
        (paddle_webhook body sig (some p) tok1 now1 db).2).2.customers.filter
        (fun c => c.email == some (subEmailStrOf p))).length = 1) ∧
    ((paddle_webhook body sig (some p) tok2 now2
        (paddle_webhook body sig (some p) tok1 now1 db).2).2.tokens =
      (paddle_webhook body sig (some p) tok1 now1 db).2.tokens) ∧
    (∀ l ∈ (paddle_webhook body sig (some p) tok2 now2
        (paddle_webhook body sig (some p) tok1 now1 db).2).2.licenses,
      l.paddle_subscription_id = subSidStrOf p →
      l.status = subStatusOf (subDataOf p) ∧
      l.email = some (subEmailStrOf p) ∧
      l.allowed_containers = subAllowedOf (subDataOf p) ∧
      l.updated_at = now2 ∧
      ∃ c ∈ (paddle_webhook body sig (some p) tok2 now2
          (paddle_webhook body sig (some p) tok1 now1 db).2).2.customers,
        c.email = some (subEmailStrOf p) ∧ l.customer_id = some c.id) := by
  obtain ⟨pc, hpc⟩ : ∃ pc,
      (if (((subCustomerOf (subDataOf p)).lookup "id").getD .null).truthy = true
       then some ((((subCustomerOf (subDataOf p)).lookup "id").getD .null).pyStr)
       else none) = pc := ⟨_, rfl⟩
  have hfc : db.customers.find? (fun c => c.email == some (subEmailStrOf p)) = none := by
    rw [List.find?_eq_none]
    intro c hc
    simp only [beq_iff_eq]
    exact hnocust c hc
  have hfl : db.licenses.find?
      (fun l => l.paddle_subscription_id == subSidStrOf p) = none := by
    rw [List.find?_eq_none]
    intro l hl
    simp only [beq_iff_eq]
    exact hnolic l hl
  have hfilnill : db.licenses.filter
      (fun l => l.paddle_subscription_id == subSidStrOf p) = [] := by
    rw [List.filter_eq_nil_iff]
    intro l hl
    simp only [beq_iff_eq]
    exact hnolic l hl
  have hfilnilc : db.customers.filter
      (fun c => c.email == some (subEmailStrOf p)) = [] := by
    rw [List.filter_eq_nil_iff]
    intro c hc
    simp only [beq_iff_eq]
    exact hnocust c hc
  -- first delivery creates the three rows
  have d1 := paddle_webhook_subscription_created body sig tok1 now1 db p he
  have e1 := handleSubscriptionEvent_create p tok1 now1
    { db with logs := db.logs ++ [WebhookLog.mk "subscription.created" p.dumps sig] }
    hsid hem hfc hfl
  have hw1 : (paddle_webhook body sig (some p) tok1 now1 db).2 =
      { db with
        customers := db.customers ++
          [Customer.mk db.nextId (some (subEmailStrOf p)) pc],
        licenses := db.licenses ++
          [License.mk (db.nextId + 1) (subSidStrOf p) (some (subEmailStrOf p))
            (subAllowedOf (subDataOf p)) (some db.nextId)
            (subStatusOf (subDataOf p)) now1 now1],
        tokens := db.tokens ++
          [MagicToken.mk (db.nextId + 2) tok1 (db.nextId + 1)
            (get_token_expiry now1) none now1],
        logs := db.logs ++ [WebhookLog.mk "subscription.created" p.dumps sig],
        nextId := db.nextId + 3 } := by
    rw [d1]
    dsimp only
    rw [e1, hpc]
  -- second delivery finds both rows and updates the license in place
  have hfc2 : (db.customers ++
      [Customer.mk db.nextId (some (subEmailStrOf p)) pc]).find?
      (fun c => c.email == some (subEmailStrOf p)) =
      some (Customer.mk db.nextId (some (subEmailStrOf p)) pc) := by
    rw [List.find?_append, hfc]
    simp
  have hfl2 : (db.licenses ++
      [License.mk (db.nextId + 1) (subSidStrOf p) (some (subEmailStrOf p))
        (subAllowedOf (subDataOf p)) (some db.nextId)
        (subStatusOf (subDataOf p)) now1 now1]).find?
      (fun l => l.paddle_subscription_id == subSidStrOf p) =
      some (License.mk (db.nextId + 1) (subSidStrOf p) (some (subEmailStrOf p))
        (subAllowedOf (subDataOf p)) (some db.nextId)
        (subStatusOf (subDataOf p)) now1 now1) := by
    rw [List.find?_append, hfl]
    simp
  have d2 := paddle_webhook_subscription_created body sig tok2 now2
    (paddle_webhook body sig (some p) tok1 now1 db).2 p he
  have e2 := handleSubscriptionEvent_update p tok2 now2
    { (paddle_webhook body sig (some p) tok1 now1 db).2 with
      logs := (paddle_webhook body sig (some p) tok1 now1 db).2.logs ++
        [WebhookLog.mk "subscription.created" p.dumps sig] }
    (Customer.mk db.nextId (some (subEmailStrOf p)) pc)
    (License.mk (db.nextId + 1) (subSidStrOf p) (some (subEmailStrOf p))
      (subAllowedOf (subDataOf p)) (some db.nextId)
      (subStatusOf (subDataOf p)) now1 now1)
    hsid hem (by rw [hw1]; exact hfc2) (by rw [hw1]; exact hfl2)
  have hmapid : ∀ (g : License → License),
      db.licenses.map (fun l => if l.id == db.nextId + 1 then g l else l) =
        db.licenses := by
    intro g
    have := List.map_congr_left (l := db.licenses)
      (f := fun l => if l.id == db.nextId + 1 then g l else l) (g := id) ?_
    · simpa using this
    · intro l hl
      have := hfresh l hl
      simp only [id]
      rw [if_neg (by simp; omega)]
  have hw2 : (paddle_webhook body sig (some p) tok2 now2
      (paddle_webhook body sig (some p) tok1 now1 db).2).2 =
      { db with
        customers := db.customers ++
          [Customer.mk db.nextId (some (subEmailStrOf p)) pc],
        licenses := db.licenses ++
          [subUpdatedLicense p now2
            (Customer.mk db.nextId (some (subEmailStrOf p)) pc)
            (License.mk (db.nextId + 1) (subSidStrOf p) (some (subEmailStrOf p))
              (subAllowedOf (subDataOf p)) (some db.nextId)
              (subStatusOf (subDataOf p)) now1 now1)],
        tokens := db.tokens ++
          [MagicToken.mk (db.nextId + 2) tok1 (db.nextId + 1)
            (get_token_expiry now1) none now1],
        logs := (db.logs ++ [WebhookLog.mk "subscription.created" p.dumps sig]) ++
          [WebhookLog.mk "subscription.created" p.dumps sig],
        nextId := db.nextId + 3 } := by
    rw [d2]
    dsimp only
    rw [e2]
    rw [hw1]
    dsimp only
    rw [List.map_append]
    rw [hmapid]
    simp
  -- conclusions
  refine ⟨?_, ?_, ?_, ?_, ?_, ?_⟩
  · rw [hw1]
    dsimp only
    rw [List.filter_append, hfilnill]
    simp
  · rw [hw2]
    dsimp only
    rw [List.filter_append, hfilnill]
    simp [subUpdatedLicense]
  · rw [hw1]
    dsimp only
    rw [List.filter_append, hfilnilc]
    simp
  · rw [hw2]
    dsimp only
    rw [List.filter_append, hfilnilc]
    simp
  · rw [hw2, hw1]
  · intro l hl hsub
    rw [hw2] at hl
    dsimp only at hl
    rcases List.mem_append.mp hl with hin | hone
    · exact absurd hsub (hnolic l hin)
    · have hupd := List.mem_singleton.mp hone
      subst hupd
      refine ⟨rfl, rfl, rfl, rfl,
        ⟨Customer.mk db.nextId (some (subEmailStrOf p)) pc, ?_, rfl, rfl⟩⟩
      rw [hw2]
      dsimp only
      exact List.mem_append_right _ (by simp)

/-- A concrete `subscription.created` payload. -/
def payC6 : Json :=
  .obj [("event_type", .str "subscription.created"),
        ("data", .obj [("id", .str "sub1"), ("status", .str "active"),
          ("customer", .obj [("email", .str "a@b.c"), ("id", .str "ctm9")]),
          ("items", .arr [.obj [("price", .obj [("name", .str "pro")])]])])]

/-- Witness for C6: replaying `payC6` against the empty store keeps one
license row for `sub1` and issues no second magic token. -/
theorem webhook_subscription_created_replay_witness :
    (((paddle_webhook "B" "S" (some payC6) "T2" 20
        (paddle_webhook "B" "S" (some payC6) "T1" 10 emptyStore).2).2.licenses.filter
        (fun l => l.paddle_subscription_id == subSidStrOf payC6)).length = 1) ∧
    ((paddle_webhook "B" "S" (some payC6) "T2" 20
        (paddle_webhook "B" "S" (some payC6) "T1" 10 emptyStore).2).2.tokens =
      (paddle_webhook "B" "S" (some payC6) "T1" 10 emptyStore).2.tokens) := by
  have h := webhook_subscription_created_replay "B" "S" "T1" "T2" 10 20 emptyStore payC6
    rfl rfl rfl (by simp [emptyStore]) (by simp [emptyStore]) (by simp [emptyStore])
  exact ⟨h.2.1, h.2.2.2.2.1⟩

end Convia
